import Mathlib

/-!
Verification development for a small DNS server (Rust sources:
src/dns_request/mod.rs, src/dns_request/structs.rs, src/handle_data.rs,
src/database.rs).  Rust strings are modelled as lists of byte values
(`RStr`); machine integers are modelled as `Nat` with an explicit
`% 2 ^ w` at every operation where the Rust code can wrap (u8 shifts,
u16 counters, `as u8` / `as u16` casts).  Fallible Rust code returns
`Option`; a Rust panic (index out of bounds, slice out of range) is
modelled as the value `none` of an outer `Option` layer, which is stated
next to each definition where it applies.
-/

/-- A Rust `String` / `&str`, as the list of its byte values (the code
only ever handles ASCII data; for ASCII the byte list and the char list
coincide). -/
abbrev RStr := List Nat

/-- `DnsAuthRecord` from src/dns_request/structs.rs (the SOA payload). -/
structure DnsAuthRecord where
  mname : List RStr
  rname : List RStr
  serial : Nat
  refresh : Nat
  retry : Nat
  expire : Nat
  minimum : Nat
deriving DecidableEq

/-- `DnsResponseCode` from src/dns_request/structs.rs. -/
inductive DnsResponseCode where
  | NoError
  | FormatError
  | ServerFailure
  | NxDomain
  | NotImplemented
  | Refused
deriving DecidableEq

/-- `DnsRecordType` from src/dns_request/structs.rs.  Each variant
carries its optional rdata payload exactly as in the source. -/
inductive DnsRecordType where
  | A (val : Option (List Nat))
  | AAAA (val : Option (List Nat))
  | CNAME (val : Option (List Nat))
  | MX (val : Option (List Nat))
  | LOC (val : Option (List Nat))
  | RP (val : Option (List Nat))
  | TLSA (val : Option (List Nat))
  | PTR (val : Option (List Nat))
  | TXT (val : Option (List Nat))
  | SOA (val : Option DnsAuthRecord)
  | NotImplemented (num : Nat)
deriving DecidableEq

/-- `DnsHeader` from src/dns_request/structs.rs.  `id` and the four
counts are u16, `opcode` and `z` are u8 in the source. -/
structure DnsHeader where
  id : Nat
  qr : Bool
  opcode : Nat
  aa : Bool
  tc : Bool
  rd : Bool
  ra : Bool
  z : Nat
  rcode : DnsResponseCode
  qd_count : Nat
  an_count : Nat
  ns_count : Nat
  ar_count : Nat
deriving DecidableEq

/-- `DnsQuestion` from src/dns_request/structs.rs. -/
structure DnsQuestion where
  qname : List RStr
  qtype : DnsRecordType
  qclass : Nat
deriving DecidableEq

/-- `DnsAnswer` from src/dns_request/structs.rs.  The Rust field
`class` is named `cls` here because `class` is a Lean keyword. -/
structure DnsAnswer where
  name : List RStr
  type : DnsRecordType
  cls : Nat
  ttl : Nat
  rd_length : Nat
  rdata : List Nat
deriving DecidableEq

/-- `DnsQuery` from src/dns_request/structs.rs. -/
structure DnsQuery where
  header : DnsHeader
  questions : List DnsQuestion
deriving DecidableEq

/-- `DnsResponse` from src/dns_request/structs.rs. -/
structure DnsResponse where
  header : DnsHeader
  questions : List DnsQuestion
  answers : List DnsAnswer
  authority_records : List DnsAnswer
  additional_records : List DnsAnswer
deriving DecidableEq

/-- Big-endian bytes of a value cast to u16 (`(n as u16).to_be_bytes()`). -/
def u16be (n : Nat) : List Nat := [n / 256 % 256, n % 256]

/-- Big-endian bytes of a u32 value (`n.to_be_bytes()` for u32). -/
def u32be (n : Nat) : List Nat :=
  [n / 16777216 % 256, n / 65536 % 256, n / 256 % 256, n % 256]

/-- `domain_list_to_bytes` from src/dns_request/structs.rs: one length
byte (`domain.len() as u8`) per label followed by the label bytes,
terminated by a zero byte. -/
def domain_list_to_bytes (list : List RStr) : List Nat :=
  (list.map (fun domain => (domain.length % 256) :: domain)).flatten ++ [0]

/-- `DnsAuthRecord::build`: mname, rname, then the five u32 fields. -/
def DnsAuthRecord.build (a : DnsAuthRecord) : List Nat :=
  domain_list_to_bytes a.mname ++ domain_list_to_bytes a.rname ++
    u32be a.serial ++ u32be a.refresh ++ u32be a.retry ++
    u32be a.expire ++ u32be a.minimum

/-- `DnsAuthRecord::new`. -/
def DnsAuthRecord.new : DnsAuthRecord :=
  { mname := [], rname := [], serial := 0, refresh := 0, retry := 0,
    expire := 0, minimum := 0 }

/-- `DnsResponseCode::to_byte`. -/
def DnsResponseCode.to_byte : DnsResponseCode → Nat
  | .NoError => 0
  | .FormatError => 1
  | .ServerFailure => 2
  | .NxDomain => 3
  | .NotImplemented => 4
  | .Refused => 5

/-- `DnsResponseCode::from_byte`: any value other than 0..4 maps to
`Refused`. -/
def DnsResponseCode.from_byte (byte : Nat) : DnsResponseCode :=
  match byte with
  | 0 => .NoError
  | 1 => .FormatError
  | 2 => .ServerFailure
  | 3 => .NxDomain
  | 4 => .NotImplemented
  | _ => .Refused

/-- `DnsRecordType::from_byte`. -/
def DnsRecordType.from_byte (byte : Nat) : DnsRecordType :=
  match byte with
  | 1 => .A none
  | 28 => .AAAA none
  | 5 => .CNAME none
  | 15 => .MX none
  | 29 => .LOC none
  | 17 => .RP none
  | 52 => .TLSA none
  | 12 => .PTR none
  | 16 => .TXT none
  | 6 => .SOA none
  | num => .NotImplemented num

/-- `DnsRecordType::to_byte`: numeric code plus the rdata bytes (for
SOA the rdata is built from the auth record). -/
def DnsRecordType.to_byte : DnsRecordType → Nat × Option (List Nat)
  | .A val => (1, val)
  | .AAAA val => (28, val)
  | .CNAME val => (5, val)
  | .MX val => (15, val)
  | .LOC val => (29, val)
  | .RP val => (17, val)
  | .TLSA val => (52, val)
  | .PTR val => (12, val)
  | .TXT val => (16, val)
  | .SOA val => (6, val.map DnsAuthRecord.build)
  | .NotImplemented val => (val, some [])

/-- Split a byte list at a separator byte, as Rust `str::split`:
always returns at least one (possibly empty) part. -/
def splitSep (sep : Nat) (s : List Nat) : List RStr :=
  s.foldr
    (fun c acc =>
      match acc with
      | h :: t => if c = sep then [] :: h :: t else (c :: h) :: t
      | [] => [[c]])
    [[]]

/-- Decimal digit test for a byte. -/
def isDigitB (c : Nat) : Bool := 48 ≤ c && c ≤ 57

/-- One dotted-quad octet, as the Rust core Ipv4 parser accepts it:
1 to 3 decimal digits, no leading zero, value at most 255.  (Model of
the standard library parser behind `str::parse::<Ipv4Addr>()`.) -/
def decOctet (p : RStr) : Option Nat :=
  if p.length = 0 || p.length > 3 then none
  else if !(p.all isDigitB) then none
  else if p.length > 1 && p.getD 0 0 = 48 then none
  else
    let v := p.foldl (fun a c => a * 10 + (c - 48)) 0
    if v > 255 then none else some v

/-- Model of `str::parse::<Ipv4Addr>()` followed by `.octets()`:
exactly four valid decimal octets separated by dots. -/
def ipv4FromStr (s : RStr) : Option (List Nat) :=
  match splitSep 46 s with
  | [a, b, c, d] =>
    match decOctet a, decOctet b, decOctet c, decOctet d with
    | some va, some vb, some vc, some vd => some [va, vb, vc, vd]
    | _, _, _, _ => none
  | _ => none

/-- Hex digit test for a byte (0-9, a-f, A-F). -/
def isHexDigitB (c : Nat) : Bool :=
  (48 ≤ c && c ≤ 57) || (97 ≤ c && c ≤ 102) || (65 ≤ c && c ≤ 70)

/-- Value of a hex digit byte. -/
def hexVal (c : Nat) : Nat :=
  if c ≤ 57 then c - 48 else if c ≤ 70 then c - 55 else c - 87

/-- One ipv6 group: 1 to 4 hex digits. -/
def hexGroup (p : RStr) : Option Nat :=
  if p.length = 0 || p.length > 4 then none
  else if p.all isHexDigitB then
    some (p.foldl (fun a c => a * 16 + hexVal c) 0)
  else none

/-- Split at the first `::`, if any. -/
def splitDC : List Nat → Option (RStr × RStr)
  | 58 :: 58 :: rest => some ([], rest)
  | c :: rest => (splitDC rest).map (fun p => (c :: p.1, p.2))
  | [] => none

/-- Bytes of a colon-separated group list; the last group may be an
embedded dotted-quad ipv4 address when `allowIp4` is set. -/
def groupsToBytes (allowIp4 : Bool) : List RStr → Option (List Nat)
  | [] => some []
  | [p] =>
    if allowIp4 && p.contains 46 then ipv4FromStr p
    else (hexGroup p).map (fun v => [v / 256, v % 256])
  | p :: rest =>
    (hexGroup p).bind
      (fun v => (groupsToBytes allowIp4 rest).map
        (fun bs => (v / 256) :: (v % 256) :: bs))

/-- Group bytes of one side of a `::`; an empty side stands for zero
groups. -/
def sideBytes (allowIp4 : Bool) (s : RStr) : Option (List Nat) :=
  if s = [] then some [] else groupsToBytes allowIp4 (splitSep 58 s)

/-- Model of `str::parse::<Ipv6Addr>()` followed by `.octets()`:
either eight hex groups (the last possibly an embedded ipv4 quad,
counting as two), or one `::` with at most seven groups in total.  In
particular any string with more than eight colon-separated groups and
no `::` is rejected, as the standard parser rejects it. -/
def ipv6FromStr (s : RStr) : Option (List Nat) :=
  match splitDC s with
  | none =>
    match sideBytes true s with
    | some bs => if bs.length = 16 then some bs else none
    | none => none
  | some (left, right) =>
    if (splitDC right).isSome then none
    else
      match sideBytes false left, sideBytes true right with
      | some lb, some rb =>
        if lb.length + rb.length ≤ 14 then
          some (lb ++ List.replicate (16 - lb.length - rb.length) 0 ++ rb)
        else none
      | _, _ => none

/-- `DnsRecordType::new_a`. -/
def DnsRecordType.new_a (ipv4 : RStr) : Option DnsRecordType :=
  match ipv4FromStr ipv4 with
  | some oct => some (.A (some oct))
  | none => none

/-- `DnsRecordType::new_aaaa`. -/
def DnsRecordType.new_aaaa (ipv6 : RStr) : Option DnsRecordType :=
  match ipv6FromStr ipv6 with
  | some oct => some (.AAAA (some oct))
  | none => none

/-- `DnsRecordType::new_soa`. -/
def DnsRecordType.new_soa (auth_record : DnsAuthRecord) : Option DnsRecordType :=
  some (.SOA (some auth_record))

/-- `DnsRecordType::new_txt`. -/
def DnsRecordType.new_txt (text : RStr) : Option DnsRecordType :=
  some (.TXT (some text))

/-- `DnsRecordType::new_cname` (unimplemented in the source). -/
def DnsRecordType.new_cname (_cname : RStr) : Option DnsRecordType := none

/-- `DnsRecordType::new_mx` (unimplemented in the source). -/
def DnsRecordType.new_mx (_val : RStr) : Option DnsRecordType := none

/-- `DnsRecordType::new_loc` (unimplemented in the source). -/
def DnsRecordType.new_loc (_val : RStr) : Option DnsRecordType := none

/-- `DnsRecordType::new_rp` (unimplemented in the source). -/
def DnsRecordType.new_rp (_val : RStr) : Option DnsRecordType := none

/-- `DnsRecordType::new_tlsa` (unimplemented in the source). -/
def DnsRecordType.new_tlsa (_val : RStr) : Option DnsRecordType := none

/-- `DnsRecordType::new_ptr` (unimplemented in the source). -/
def DnsRecordType.new_ptr (_val : RStr) : Option DnsRecordType := none

/-- `DnsAnswer::default`. -/
def DnsAnswer.default : DnsAnswer :=
  { name := [], type := .A none, cls := 1, ttl := 0, rd_length := 0,
    rdata := [] }

/-- `DnsAnswer::name` builder (renamed: `name` is the projection). -/
def DnsAnswer.setName (a : DnsAnswer) (name : List RStr) : DnsAnswer :=
  { a with name := name }

/-- `DnsAnswer::ttl` builder (renamed: `ttl` is the projection). -/
def DnsAnswer.setTtl (a : DnsAnswer) (ttl : Nat) : DnsAnswer :=
  { a with ttl := ttl }

/-- `DnsAnswer::record`: a `none` argument leaves the answer
unchanged; otherwise the type is set and, when the type carries rdata,
`rd_length` (a u16) and `rdata` are set from it. -/
def DnsAnswer.record (a : DnsAnswer) (r_type : Option DnsRecordType) : DnsAnswer :=
  match r_type with
  | none => a
  | some rt =>
    let a := { a with type := rt }
    match a.type.to_byte.2 with
    | some val => { a with rd_length := val.length % 65536, rdata := val }
    | none => a

/-- `DnsAnswer::build`. -/
def DnsAnswer.build (a : DnsAnswer) : List Nat :=
  domain_list_to_bytes a.name ++ u16be a.type.to_byte.1 ++ u16be a.cls ++
    u32be a.ttl ++ u16be a.rd_length ++ a.rdata

/-- `DnsQuestion::build`. -/
def DnsQuestion.build (q : DnsQuestion) : List Nat :=
  domain_list_to_bytes q.qname ++ u16be q.qtype.to_byte.1 ++ u16be q.qclass

/-- `DnsHeader::build`: id, two flag bytes, four counts.  The u8
shifts `opcode << 3` and `z << 4` discard high bits, hence the
`% 256`. -/
def DnsHeader.build (h : DnsHeader) : List Nat :=
  u16be h.id ++
    [h.rd.toNat ||| h.tc.toNat <<< 1 ||| h.aa.toNat <<< 2 |||
       (h.opcode <<< 3) % 256 ||| h.qr.toNat <<< 7,
     h.rcode.to_byte ||| (h.z <<< 4) % 256 ||| h.ra.toNat <<< 7] ++
    u16be h.qd_count ++ u16be h.an_count ++ u16be h.ns_count ++
    u16be h.ar_count

/-- `DnsResponse::default`. -/
def DnsResponse.default : DnsResponse :=
  { header :=
      { id := 0, qr := true, opcode := 0, aa := false, tc := false,
        rd := true, ra := true, z := 0, rcode := .NoError,
        qd_count := 0, an_count := 0, ns_count := 0, ar_count := 0 },
    questions := [], answers := [], authority_records := [],
    additional_records := [] }

/-- `DnsResponse::id` builder. -/
def DnsResponse.id (r : DnsResponse) (id : Nat) : DnsResponse :=
  { r with header := { r.header with id := id } }

/-- `DnsResponse::rd` builder. -/
def DnsResponse.rd (r : DnsResponse) (rd : Bool) : DnsResponse :=
  { r with header := { r.header with rd := rd } }

/-- `DnsResponse::opcode` builder. -/
def DnsResponse.opcode (r : DnsResponse) (opcode : Nat) : DnsResponse :=
  { r with header := { r.header with opcode := opcode } }

/-- `DnsResponse::rcode` builder. -/
def DnsResponse.rcode (r : DnsResponse) (rcode : DnsResponseCode) : DnsResponse :=
  { r with header := { r.header with rcode := rcode } }

/-- `DnsResponse::ar_count` builder (sets the header count only). -/
def DnsResponse.ar_count (r : DnsResponse) (ar_count : Nat) : DnsResponse :=
  { r with header := { r.header with ar_count := ar_count % 65536 } }

/-- `DnsResponse::add_answer`: pushes the answer and increments the
u16 `an_count` (wrapping). -/
def DnsResponse.add_answer (r : DnsResponse) (answer : DnsAnswer) : DnsResponse :=
  { r with answers := r.answers ++ [answer],
           header := { r.header with an_count := (r.header.an_count + 1) % 65536 } }

/-- `DnsResponse::add_question`: pushes the question and increments
the u16 `qd_count` (wrapping). -/
def DnsResponse.add_question (r : DnsResponse) (question : DnsQuestion) : DnsResponse :=
  { r with questions := r.questions ++ [question],
           header := { r.header with qd_count := (r.header.qd_count + 1) % 65536 } }

/-- `DnsResponse::add_auth_record`: pushes the authority record and
increments the u16 `ns_count` (wrapping). -/
def DnsResponse.add_auth_record (r : DnsResponse) (auth_record : DnsAnswer) : DnsResponse :=
  { r with authority_records := r.authority_records ++ [auth_record],
           header := { r.header with ns_count := (r.header.ns_count + 1) % 65536 } }

/-- `DnsResponse::build`: header, questions, answers, authority,
additional; with `tcp` a u16 big-endian length prefix of the payload
is prepended. -/
def DnsResponse.build (r : DnsResponse) (tcp : Bool) : List Nat :=
  let result :=
    r.header.build ++ (r.questions.map DnsQuestion.build).flatten ++
      (r.answers.map DnsAnswer.build).flatten ++
      (r.authority_records.map DnsAnswer.build).flatten ++
      (r.additional_records.map DnsAnswer.build).flatten
  if !tcp then result else u16be result.length ++ result

/-- `parse_header` from src/dns_request/mod.rs: fails on fewer than 12
bytes, otherwise decodes id, the two flag bytes (with the source bit
masks), the four counts, and returns the bytes after the header when
any remain. -/
def parse_header (buffer : List Nat) : Option (DnsHeader × Option (List Nat)) :=
  if buffer.length < 12 then none
  else
    some
      ({ id := buffer.getD 0 0 * 256 + buffer.getD 1 0,
         qr := ((buffer.getD 2 0 &&& 0b10000000) >>> 7) != 0,
         opcode := (buffer.getD 2 0 &&& 0b01111000) >>> 3,
         aa := ((buffer.getD 2 0 &&& 0b00000100) >>> 2) != 0,
         tc := ((buffer.getD 2 0 &&& 0b00000010) >>> 1) != 0,
         rd := (buffer.getD 2 0 &&& 0b00000001) != 0,
         ra := ((buffer.getD 3 0 &&& 0b10000000) >>> 7) != 0,
         z := (buffer.getD 3 0 &&& 0b01110000) >>> 4,
         rcode := .from_byte (buffer.getD 3 0 &&& 0b00001111),
         qd_count := buffer.getD 4 0 * 256 + buffer.getD 5 0,
         an_count := buffer.getD 6 0 * 256 + buffer.getD 7 0,
         ns_count := buffer.getD 8 0 * 256 + buffer.getD 9 0,
         ar_count := buffer.getD 10 0 * 256 + buffer.getD 11 0 },
       if buffer.length > 12 then some (buffer.drop 12) else none)

/-- The inner label loop of `parse_question`: read `n` bytes, failing
when the buffer runs out (the `i + j >= buffer.len()` check). -/
def read_label : Nat → List Nat → Option (List Nat × List Nat)
  | 0, l => some ([], l)
  | _ + 1, [] => none
  | n + 1, c :: l => (read_label n l).map (fun p => (c :: p.1, p.2))

/-- The outer label loop of `parse_question`: length byte, label
bytes, repeated until a zero length byte.  Running past the end of the
buffer without a terminator is `none` (the question parse then fails
in the source because `i + 3 < buffer.len()` cannot hold).  The fuel
argument only bounds the recursion; `buffer.length` always suffices
because every round consumes at least two bytes. -/
def parse_labels : Nat → List Nat → Option (List RStr × List Nat)
  | _, [] => none
  | 0, _ :: _ => none
  | fuel + 1, len :: rest =>
    if len = 0 then some ([], rest)
    else
      match read_label len rest with
      | none => none
      | some (label, r) =>
        (parse_labels fuel r).map (fun p => (label :: p.1, p.2))

/-- `parse_question` from src/dns_request/mod.rs: labels, then (with
at least 4 bytes left, the `i + 3 < buffer.len()` check) a u16 qtype
mapped through `from_byte` of its low byte (`qtype as u8`) and a u16
qclass; remaining bytes are returned when more than 4 are left. -/
def parse_question (buffer : List Nat) : Option (DnsQuestion × Option (List Nat)) :=
  match parse_labels buffer.length buffer with
  | none => none
  | some (domains, rest) =>
    if rest.length < 4 then none
    else
      some
        ({ qname := domains,
           qtype := .from_byte ((rest.getD 0 0 * 256 + rest.getD 1 0) % 256),
           qclass := rest.getD 2 0 * 256 + rest.getD 3 0 },
         if rest.length > 4 then some (rest.drop 4) else none)

/-- The question loop of `parse_query`: parse questions while bytes
remain; any failed question parse fails the whole query.  Fuel
`buffer.length` always suffices because every question consumes at
least five bytes. -/
def parse_questions : Nat → List Nat → Option (List DnsQuestion)
  | 0, _ => none
  | fuel + 1, buffer =>
    match parse_question buffer with
    | none => none
    | some (q, none) => some [q]
    | some (q, some r) => (parse_questions fuel r).map (fun qs => q :: qs)

/-- The body of `parse_query` after the tcp length prefix has been
removed: header, then questions from the remaining bytes. -/
def parse_query_body (buffer : List Nat) : Option DnsQuery :=
  match parse_header buffer with
  | none => none
  | some (header, none) => some { header := header, questions := [] }
  | some (header, some rest) =>
    match parse_questions rest.length rest with
    | none => none
    | some questions => some { header := header, questions := questions }

/-- `parse_query` from src/dns_request/mod.rs.  With `tcp` the source
slices `buffer[2..]`, which PANICS when the buffer holds fewer than
two bytes; the panic is the outer `none`.  A non-panicking run returns
`some` of the parse result (`none` inside meaning no query, the format
error case). -/
def parse_query (buffer : List Nat) (tcp : Bool) : Option (Option DnsQuery) :=
  if tcp then
    if buffer.length < 2 then none
    else some (parse_query_body (buffer.drop 2))
  else some (parse_query_body buffer)

/-- Decimal rendering worker; the fuel argument (first) only bounds the
recursion depth and `n` itself always suffices. -/
def natToDecimalAux : Nat → Nat → RStr
  | 0, n => [48 + n % 10]
  | fuel + 1, n => if n < 10 then [48 + n] else natToDecimalAux fuel (n / 10) ++ [48 + n % 10]

/-- Decimal digits of a numeric value, as Rust `format!` renders it. -/
def natToDecimal (n : Nat) : RStr := natToDecimalAux n n

/-- Rust `Vec::join` on strings. -/
def joinSep (sep : Nat) : List RStr → RStr
  | [] => []
  | [x] => x
  | x :: xs => x ++ sep :: joinSep sep xs

/-- JSON escaping of one byte (model of serde_json string output for
the ASCII data this program handles). -/
def jsonEscapeChar (c : Nat) : RStr :=
  if c = 34 || c = 92 then [92, c] else [c]

/-- A JSON string literal. -/
def jsonString (s : RStr) : RStr :=
  34 :: (s.map jsonEscapeChar).flatten ++ [34]

/-- A JSON array of string literals. -/
def jsonStrArray (l : List RStr) : RStr :=
  91 :: joinSep 44 (l.map jsonString) ++ [93]

/-- `stringify_auth_record` from src/database.rs: model of
`serde_json::to_string` on `DnsAuthRecord` (fields in declaration
order, no whitespace, as serde emits them). -/
def stringify_auth_record (auth_rec : DnsAuthRecord) : RStr :=
  [123] ++ jsonString [109, 110, 97, 109, 101] ++ [58] ++
    jsonStrArray auth_rec.mname ++ [44] ++
    jsonString [114, 110, 97, 109, 101] ++ [58] ++
    jsonStrArray auth_rec.rname ++ [44] ++
    jsonString [115, 101, 114, 105, 97, 108] ++ [58] ++
    natToDecimal auth_rec.serial ++ [44] ++
    jsonString [114, 101, 102, 114, 101, 115, 104] ++ [58] ++
    natToDecimal auth_rec.refresh ++ [44] ++
    jsonString [114, 101, 116, 114, 121] ++ [58] ++
    natToDecimal auth_rec.retry ++ [44] ++
    jsonString [101, 120, 112, 105, 114, 101] ++ [58] ++
    natToDecimal auth_rec.expire ++ [44] ++
    jsonString [109, 105, 110, 105, 109, 117, 109] ++ [58] ++
    natToDecimal auth_rec.minimum ++ [125]

/-- Read a decimal number from the front of a byte list. -/
def readJsonNat (s : RStr) : Option (Nat × RStr) :=
  let digits := s.takeWhile isDigitB
  if digits = [] then none
  else some (digits.foldl (fun a c => a * 10 + (c - 48)) 0, s.drop digits.length)

/-- Read a JSON string literal body after the opening quote, undoing
the escapes of `jsonEscapeChar`. -/
def readJsonStringBody : RStr → Option (RStr × RStr)
  | [] => none
  | 34 :: rest => some ([], rest)
  | 92 :: c :: rest => (readJsonStringBody rest).map (fun p => (c :: p.1, p.2))
  | c :: rest => (readJsonStringBody rest).map (fun p => (c :: p.1, p.2))

/-- Read a JSON array of string literals; fuel bounds the item count
(the input length always suffices). -/
def readJsonStrArrayItems : Nat → RStr → Option (List RStr × RStr)
  | _, 93 :: rest => some ([], rest)
  | fuel + 1, 34 :: rest =>
    match readJsonStringBody rest with
    | none => none
    | some (item, r) =>
      match r with
      | 44 :: r2 =>
        (readJsonStrArrayItems fuel r2).map (fun p => (item :: p.1, p.2))
      | 93 :: r2 => some ([item], r2)
      | _ => none
  | _, _ => none

/-- Read a JSON array of string literals, including the opening
bracket. -/
def readJsonStrArray (s : RStr) : Option (List RStr × RStr) :=
  match s with
  | 91 :: rest => readJsonStrArrayItems rest.length rest
  | _ => none

/-- Expect a literal byte sequence at the front. -/
def expectBytes (pat s : RStr) : Option RStr :=
  if pat.isPrefixOf s then some (s.drop pat.length) else none

/-- Model of `serde_json::from_str::<DnsAuthRecord>`, adequate for
this development: it decodes the canonical encoding produced by
`stringify_auth_record` (the real serde also tolerates whitespace and
field reordering, which this program never produces). -/
def jsonDecodeAuthRecord (s : RStr) : Option DnsAuthRecord :=
  match expectBytes ([123] ++ jsonString [109, 110, 97, 109, 101] ++ [58]) s with
  | none => none
  | some s =>
    match readJsonStrArray s with
    | none => none
    | some (mname, s) =>
      match expectBytes ([44] ++ jsonString [114, 110, 97, 109, 101] ++ [58]) s with
      | none => none
      | some s =>
        match readJsonStrArray s with
        | none => none
        | some (rname, s) =>
          match expectBytes ([44] ++ jsonString [115, 101, 114, 105, 97, 108] ++ [58]) s with
          | none => none
          | some s =>
            match readJsonNat s with
            | none => none
            | some (serial, s) =>
              match expectBytes ([44] ++ jsonString [114, 101, 102, 114, 101, 115, 104] ++ [58]) s with
              | none => none
              | some s =>
                match readJsonNat s with
                | none => none
                | some (refresh, s) =>
                  match expectBytes ([44] ++ jsonString [114, 101, 116, 114, 121] ++ [58]) s with
                  | none => none
                  | some s =>
                    match readJsonNat s with
                    | none => none
                    | some (retry, s) =>
                      match expectBytes ([44] ++ jsonString [101, 120, 112, 105, 114, 101] ++ [58]) s with
                      | none => none
                      | some s =>
                        match readJsonNat s with
                        | none => none
                        | some (expire, s) =>
                          match expectBytes ([44] ++ jsonString [109, 105, 110, 105, 109, 117, 109] ++ [58]) s with
                          | none => none
                          | some s =>
                            match readJsonNat s with
                            | none => none
                            | some (minimum, s) =>
                              if s = [125] then
                                some { mname := mname, rname := rname,
                                       serial := serial, refresh := refresh,
                                       retry := retry, expire := expire,
                                       minimum := minimum }
                              else none

/-- `parse_auth_record` from src/database.rs: a decode failure yields
the all-empty `DnsAuthRecord::new()`. -/
def parse_auth_record (json : RStr) : DnsAuthRecord :=
  match jsonDecodeAuthRecord json with
  | some val => val
  | none => DnsAuthRecord.new

/-- `get_val_from_ans` from src/database.rs: the string cell written
for an answer.  A records: decimal octets joined by dots.  AAAA
records: decimal bytes joined by colons (NOT standard colon-hex).
SOA: the JSON encoding of the auth record (`val.unwrap()` in the
source panics on a payload-free SOA, modelled as `none`).  Everything
else: the empty string. -/
def get_val_from_ans (ans : DnsAnswer) : Option RStr :=
  match ans.type with
  | .A _ => some (joinSep 46 (ans.rdata.map natToDecimal))
  | .AAAA _ => some (joinSep 58 (ans.rdata.map natToDecimal))
  | .SOA val =>
    match val with
    | some v => some (stringify_auth_record v)
    | none => none
  | _ => some []

/-- `get_ans_from_val` from src/database.rs: rebuild the record from
the cached cell string.  Note that `DnsAnswer::record` IGNORES a
`none` record type, so a failed parse returns `ans` unchanged. -/
def get_ans_from_val (value : RStr) (record_type : DnsRecordType) (ans : DnsAnswer) : DnsAnswer :=
  match record_type with
  | .A _ => ans.record (DnsRecordType.new_a value)
  | .AAAA _ => ans.record (DnsRecordType.new_aaaa value)
  | .CNAME _ => ans.record (DnsRecordType.new_cname value)
  | .MX _ => ans.record (DnsRecordType.new_mx value)
  | .LOC _ => ans.record (DnsRecordType.new_loc value)
  | .RP _ => ans.record (DnsRecordType.new_rp value)
  | .TLSA _ => ans.record (DnsRecordType.new_tlsa value)
  | .SOA _ => ans.record (DnsRecordType.new_soa (parse_auth_record value))
  | .PTR _ => ans.record (DnsRecordType.new_ptr value)
  | _ => ans

/-- The column match of `get_record` / `save_record` in
src/database.rs: TXT, PTR (commented out in the source) and
NotImplemented have no column and return early. -/
def db_column : DnsRecordType → Option RStr
  | .A _ => some [105, 112, 118, 52]
  | .AAAA _ => some [105, 112, 118, 54]
  | .CNAME _ => some [99, 110, 97, 109, 101]
  | .MX _ => some [109, 120]
  | .LOC _ => some [108, 111, 99]
  | .RP _ => some [114, 112]
  | .TLSA _ => some [99, 101, 114, 116, 105, 102, 105, 99, 97, 116, 101]
  | .SOA _ => some [97, 117, 116, 104, 111, 114, 105, 116, 121]
  | _ => none

/-- `get_record` from src/database.rs.  The two effectful collaborators
are passed explicitly: `cell` is the result of the SQL row lookup for
(zone, qualified name, column) — `none` when the table, row or column
read fails, otherwise the cell string and the ttl (the source reads the
ttl as text and `parse().unwrap()`s it; it is modelled as the number) —
and `fill` is the result of `save_record`, the on-miss path that asks
the upstream resolver and persists its answer.  The source falls
through to `save_record` only when the lookup fails or the cell is the
empty string; a non-empty cell is handed to `get_ans_from_val`
unconditionally. -/
def get_record (cell : Option (RStr × Nat)) (fill : Option DnsAnswer)
    (name : List RStr) (record_type : DnsRecordType) : Option DnsAnswer :=
  match db_column record_type with
  | none => none
  | some _ =>
    if name.length = 0 then none
    else
      match cell with
      | none => fill
      | some (value, ttl) =>
        if value = [] then fill
        else some (get_ans_from_val value record_type (DnsAnswer.default.setTtl ttl))

/-- The record store as the handler sees it: `database::get_record`
with its database and upstream effects abstracted into a function from
(lookup name, record type) to an optional answer. -/
abbrev Store := List RStr → DnsRecordType → Option DnsAnswer

/-- The literal label `home`. -/
def homeStr : RStr := [104, 111, 109, 101]

/-- The name-shadowing block at the top of `handle_a` / `handle_aaaa`:
strip a trailing `home` label.  (The source indexes
`name[name.len() - 1]` first, which panics on an empty name; the
callers guard that case explicitly below.) -/
def stripName (name : List RStr) : List RStr :=
  if name.getD (name.length - 1) [] = homeStr then name.take (name.length - 1)
  else name

/-- `handle_a` from src/handle_data.rs.  On an empty qname the source
evaluates `name[name.len() - 1]`, an out-of-bounds index: that panic is
the `none` result.  With rd unset it asks the store for SOA, with rd
set for A; a store miss sets rcode NxDomain, a hit is attached VIA
`add_answer` (not as an authority record) with its name set to the
STRIPPED lookup name. -/
def handle_a (store : Store) (name : List RStr) (rd : Bool) (response : DnsResponse) : Option DnsResponse :=
  if name.length = 0 then none
  else
    let name := stripName name
    if !rd then
      match store name (.SOA none) with
      | none => some (response.rcode .NxDomain)
      | some answer => some (response.add_answer (answer.setName name))
    else
      match store name (.A none) with
      | none => some (response.rcode .NxDomain)
      | some answer => some (response.add_answer (answer.setName name))

/-- `handle_aaaa` from src/handle_data.rs: as `handle_a` with kind
AAAA in the recursive branch. -/
def handle_aaaa (store : Store) (name : List RStr) (rd : Bool) (response : DnsResponse) : Option DnsResponse :=
  if name.length = 0 then none
  else
    let name := stripName name
    if !rd then
      match store name (.SOA none) with
      | none => some (response.rcode .NxDomain)
      | some answer => some (response.add_answer (answer.setName name))
    else
      match store name (.AAAA none) with
      | none => some (response.rcode .NxDomain)
      | some answer => some (response.add_answer (answer.setName name))

/-- The TXT rdata chosen by `handle_txt` for one label. -/
def txtContent (field : RStr) : RStr :=
  if field = [118, 101, 114, 115, 105, 111, 110] then
    [34, 118, 101, 114, 115, 105, 111, 110, 61, 49, 46, 48, 34]
  else if field = [98, 105, 110, 100] then
    [34, 98, 105, 110, 100, 61, 104, 101, 108, 108, 111, 34]
  else
    [117, 110, 107, 110, 111, 119, 110, 61, 117, 110, 107, 110, 111, 119, 110]

/-- `handle_txt` from src/handle_data.rs: one TXT answer per label of
the qname, ttl 30. -/
def handle_txt (fields : List RStr) (response : DnsResponse) : DnsResponse :=
  fields.foldl
    (fun response field =>
      response.add_answer
        (((DnsAnswer.default.setName [field]).setTtl 30).record
          (DnsRecordType.new_txt (txtContent field))))
    response

/-- The question loop of `handle_message` in src/handle_data.rs: each
question is appended to the response, then dispatched on its qtype;
unknown and unimplemented kinds are logged and skipped.  A panic in a
handler (empty qname) is the `none` result. -/
def handle_questions (store : Store) (rd : Bool) : List DnsQuestion → DnsResponse → Option DnsResponse
  | [], response => some response
  | question :: rest, response =>
    let response := response.add_question question
    match question.qtype with
    | .A _ =>
      match handle_a store question.qname rd response with
      | none => none
      | some r => handle_questions store rd rest r
    | .AAAA _ =>
      match handle_aaaa store question.qname rd response with
      | none => none
      | some r => handle_questions store rd rest r
    | .TXT _ => handle_questions store rd rest (handle_txt question.qname response)
    | .NotImplemented _ => handle_questions store rd rest response
    | _ => handle_questions store rd rest response

/-- The body of `handle_message` (src/handle_data.rs) between parsing
and serialization: initialize the response from the query header (with
rcode NxDomain up front when rd is unset) and run the question loop. -/
def handle_query (store : Store) (query : DnsQuery) : Option DnsResponse :=
  let response := (DnsResponse.default.id query.header.id).rd query.header.rd
  let response := if !query.header.rd then response.rcode .NxDomain else response
  handle_questions store query.header.rd query.questions response

/-- `handle_message` from src/handle_data.rs: parse, handle, build.
The outer `none` is a panic (short tcp buffer in `parse_query`, or an
empty qname inside `handle_a` / `handle_aaaa`); `some none` is a parse
failure, on which no reply is sent. -/
def handle_message (store : Store) (buffer : List Nat) (tcp : Bool) : Option (Option (List Nat)) :=
  match parse_query buffer tcp with
  | none => none
  | some none => some none
  | some (some query) =>
    match handle_query store query with
    | none => none
    | some response => some (some (response.build tcp))

/-- The spec round-trip harness (spec section 8): serialize a query
through the response builder with empty answer, authority and
additional sections. -/
def build_response_as_query (q : DnsQuery) (tcp : Bool) : List Nat :=
  DnsResponse.build
    { header := q.header, questions := q.questions, answers := [],
      authority_records := [], additional_records := [] } tcp

/-- A label in range per the spec: 1 to 63 ASCII bytes. -/
def wfLabel (l : RStr) : Prop :=
  1 ≤ l.length ∧ l.length ≤ 63 ∧ ∀ b ∈ l, b < 128

/-- The known qtype set of the spec (the ten implemented kinds, with
no rdata payload, as `parse_question` produces them). -/
def knownType (t : DnsRecordType) : Prop :=
  t = .A none ∨ t = .AAAA none ∨ t = .CNAME none ∨ t = .MX none ∨
    t = .LOC none ∨ t = .RP none ∨ t = .TLSA none ∨ t = .PTR none ∨
    t = .TXT none ∨ t = .SOA none

/-- A question whose labels are in range, whose qtype is known and
whose qclass is in u16 range. -/
def wfQuestion (q : DnsQuestion) : Prop :=
  (∀ l ∈ q.qname, wfLabel l) ∧ knownType q.qtype ∧ q.qclass < 65536

/-- Header fields within their wire ranges: id and counts in u16
range (their Rust type), opcode below 16 and z below 8 (the widths of
their bit fields; their Rust type u8 admits larger values, which do
not survive the flag byte encoding). -/
def wfHeader (h : DnsHeader) : Prop :=
  h.id < 65536 ∧ h.opcode < 16 ∧ h.z < 8 ∧ h.qd_count < 65536 ∧
    h.an_count < 65536 ∧ h.ns_count < 65536 ∧ h.ar_count < 65536

/-- A query that the round trip preserves. -/
def wfQuery (q : DnsQuery) : Prop :=
  wfHeader q.header ∧ ∀ question ∈ q.questions, wfQuestion question

/-- Is the record type an SOA? -/
def isSOA : DnsRecordType → Bool
  | .SOA _ => true
  | _ => false

/-- The header counts agree with the section lengths modulo 2 ^ 16
(the counts are u16 and every `add_*` increments with wraparound). -/
def countsMod (r : DnsResponse) : Prop :=
  r.header.qd_count = r.questions.length % 65536 ∧
    r.header.an_count = r.answers.length % 65536 ∧
    r.header.ns_count = r.authority_records.length % 65536 ∧
    r.header.ar_count = r.additional_records.length % 65536

/-- Responses reachable from `DnsResponse::default()` by the three
section-adding builders. -/
inductive Reachable : DnsResponse → Prop where
  | base : Reachable DnsResponse.default
  | add_question (q : DnsQuestion) {r : DnsResponse} :
      Reachable r → Reachable (r.add_question q)
  | add_answer (a : DnsAnswer) {r : DnsResponse} :
      Reachable r → Reachable (r.add_answer a)
  | add_auth_record (a : DnsAnswer) {r : DnsResponse} :
      Reachable r → Reachable (r.add_auth_record a)

/-- `n` consecutive `add_answer` calls on the default response. -/
def addAnswers : Nat → DnsResponse
  | 0 => DnsResponse.default
  | n + 1 => (addAnswers n).add_answer DnsAnswer.default

/-- A concrete SOA payload for the store scenarios. -/
def c1auth : DnsAuthRecord :=
  { mname := [[110, 115]], rname := [[104, 106]], serial := 1,
    refresh := 2, retry := 3, expire := 4, minimum := 5 }

/-- A concrete stored SOA answer. -/
def c1soaAns : DnsAnswer :=
  DnsAnswer.default.record (some (.SOA (some c1auth)))

/-- A store that hits with an SOA answer on SOA requests and misses
otherwise. -/
def c1store : Store := fun _ k =>
  match k with
  | .SOA _ => some c1soaAns
  | _ => none

/-- One A question for name `a`, header with rd = 0. -/
def c1query : DnsQuery :=
  { header := { id := 5, qr := false, opcode := 0, aa := false, tc := false,
                rd := false, ra := false, z := 0, rcode := .NoError,
                qd_count := 1, an_count := 0, ns_count := 0, ar_count := 0 },
    questions := [{ qname := [[97]], qtype := .A none, qclass := 1 }] }

/-- The shape claimed for an rd = 0 response over `n` questions, on
the optional handler result. -/
def rd0Shape (n : Nat) (o : Option DnsResponse) : Prop :=
  match o with
  | none => False
  | some r =>
    r.answers.length = n ∧ (∀ a ∈ r.answers, isSOA a.type = true) ∧
      r.authority_records = [] ∧ r.header.rcode = .NxDomain

/-- A store that always hits with the default answer. -/
def c2store : Store := fun _ _ => some DnsAnswer.default

/-- The qname `foo.home`. -/
def c2name : List RStr := [[102, 111, 111], homeStr]

/-- A 16-zero AAAA record as the upstream would hand it to the cache
write path. -/
def c3ans : DnsAnswer :=
  DnsAnswer.default.record (some (.AAAA (some (List.replicate 16 0))))

/-- The cache cell the write path produces for `c3ans`: sixteen
decimal zeros joined by colons. -/
def c3str : RStr :=
  [48, 58, 48, 58, 48, 58, 48, 58, 48, 58, 48, 58, 48, 58, 48, 58, 48,
   58, 48, 58, 48, 58, 48, 58, 48, 58, 48, 58, 48, 58, 48]

/-- The 12 header bytes of the spec parse_header scenario as the
SOURCE test writes them (third byte 0x0D). -/
def c8bytes : List Nat := [0, 16, 13, 196, 0, 0, 0, 0, 0, 0, 0, 0]

/-- The 12 header bytes as the spec scenario literal spells them
(third byte 0x1D). -/
def c8bytesSpec : List Nat := [0, 16, 29, 196, 0, 0, 0, 0, 0, 0, 0, 0]

/-- The header the scenario expects: id 16, opcode 1, aa, rd, ra,
z = 4, rcode NotImplemented. -/
def c8header : DnsHeader :=
  { id := 16, qr := false, opcode := 1, aa := true, tc := false, rd := true,
    ra := true, z := 4, rcode := .NotImplemented, qd_count := 0,
    an_count := 0, ns_count := 0, ar_count := 0 }

/-- The response of the source `response_test`: id 32, opcode 3,
rcode Refused, one A answer for www.example.com, ttl 200. -/
def c9resp : DnsResponse :=
  (((DnsResponse.default.id 32).opcode 3).rcode .Refused).add_answer
    (((DnsAnswer.default.setName
          [[119, 119, 119], [101, 120, 97, 109, 112, 108, 101], [99, 111, 109]]).setTtl
        200).record
      (DnsRecordType.new_a [49, 57, 50, 46, 49, 54, 56, 46, 48, 46, 49]))

/-- The bytes `response_test` expects (first flag byte 0x99). -/
def c9bytes : List Nat :=
  [0, 43, 0, 32, 153, 133, 0, 0, 0, 1, 0, 0, 0, 0,
   3, 119, 119, 119, 7, 101, 120, 97, 109, 112, 108, 101, 3, 99, 111, 109, 0,
   0, 1, 0, 1, 0, 0, 0, 200, 0, 4, 192, 168, 0, 1]

/-- The byte sequence the spec scenario spells, with first flag byte
0x19 instead of 0x99. -/
def c9bytesSpec : List Nat :=
  [0, 43, 0, 32, 25, 133, 0, 0, 0, 1, 0, 0, 0, 0,
   3, 119, 119, 119, 7, 101, 120, 97, 109, 112, 108, 101, 3, 99, 111, 109, 0,
   0, 1, 0, 1, 0, 0, 0, 200, 0, 4, 192, 168, 0, 1]

/-- A 17-byte buffer: header with rd set and one question whose qname
is the DNS root (a lone zero length byte), qtype A, qclass 1. -/
def c10buf : List Nat :=
  [0, 0, 1, 0, 0, 0, 0, 0, 0, 0, 0, 0, 0, 0, 1, 0, 1]

/-- The query `c10buf` parses to. -/
def c10query : DnsQuery :=
  { header := { id := 0, qr := false, opcode := 0, aa := false, tc := false,
                rd := true, ra := false, z := 0, rcode := .NoError,
                qd_count := 0, an_count := 0, ns_count := 0, ar_count := 0 },
    questions := [{ qname := [], qtype := .A none, qclass := 1 }] }

/-- A query with opcode 16: a Query value the claimed round trip does
not preserve (the opcode bleeds into the qr bit of the flag byte). -/
def c5query : DnsQuery :=
  { header := { id := 0, qr := false, opcode := 16, aa := false, tc := false,
                rd := false, ra := false, z := 0, rcode := .NoError,
                qd_count := 0, an_count := 0, ns_count := 0, ar_count := 0 },
    questions := [] }

/-- A well-formed query with one A question for `www`, exercising the
amended round trip. -/
def c5wquery : DnsQuery :=
  { header := { id := 513, qr := false, opcode := 1, aa := true, tc := false,
                rd := true, ra := true, z := 4, rcode := .NotImplemented,
                qd_count := 1, an_count := 0, ns_count := 0, ar_count := 0 },
    questions := [{ qname := [[119, 119, 119]], qtype := .A none, qclass := 300 }] }

/-- A store and query for the counts witness: no hits, no questions. -/
def c6store : Store := fun _ _ => none

/-- An empty rd = 1 query with id 7. -/
def c6query : DnsQuery :=
  { header := { id := 7, qr := false, opcode := 0, aa := false, tc := false,
                rd := true, ra := false, z := 0, rcode := .NoError,
                qd_count := 0, an_count := 0, ns_count := 0, ar_count := 0 },
    questions := [] }

/-- The response `handle_query` produces for `c6query`. -/
def c6resp : DnsResponse := (DnsResponse.default.id 7).rd true
/-- C8 (amended: the third header byte of the scenario is 0x0D, as in
the source test, not 0x1D): `parse_header` on
`00 10 0D C4 00 00 00 00 00 00 00 00` returns id 16, qr 0, opcode 1,
aa 1, tc 0, rd 1, ra 1, z 4, rcode NotImplemented and zero counts,
with no remaining bytes. -/
theorem parse_header_scenario : parse_header c8bytes = some (c8header, none) := by decide

/-- C8 counterexample: on the bytes the claim literally spells
(`00 10 1D C4 ...`), `parse_header` does not return the claimed
header: byte 0x1D decodes to opcode 3, not opcode 1. -/
theorem parse_header_scenario_counterexample :
    parse_header c8bytesSpec ≠ some (c8header, none) ∧
      parse_header c8bytesSpec = some ({ c8header with opcode := 3 }, none) := by
  exact ⟨by decide, by decide⟩

/-- C9 (amended: the first flag byte is 0x99, not 0x19; the built
response has qr = 1): building the response_test response over tcp
yields exactly length 00 2B, id 00 20, flags 99 85, counts
00 00 00 01 00 00 00 00, the encoded name, type 00 01, class 00 01,
ttl 00 00 00 C8, rdlength 00 04 and rdata C0 A8 00 01. -/
theorem response_build_scenario : c9resp.build true = c9bytes := by decide

/-- C9 counterexample: the byte sequence the claim spells (flag byte
0x19) is not what `build` produces; the flag byte position holds 0x99
because `DnsResponse::default` sets qr. -/
theorem response_build_counterexample : c9resp.build true ≠ c9bytesSpec := by decide

/-- C3 (code bug): the cache write path renders a 16-octet AAAA rdata
as sixteen decimal groups joined by colons, and the read path
(`new_aaaa`, i.e. `Ipv6Addr::from_str`, which accepts at most eight
groups) rejects exactly that string, so the read path returns the
answer unchanged with empty rdata instead of the original 16 octets;
the A side of the claim does round-trip. -/
theorem aaaa_cache_roundtrip_fails :
    get_val_from_ans c3ans = some c3str ∧
      DnsRecordType.new_aaaa c3str = none ∧
      get_ans_from_val c3str (.AAAA none) (DnsAnswer.default.setTtl 5) =
        DnsAnswer.default.setTtl 5 ∧
      DnsRecordType.new_a
          (joinSep 46 (([192, 168, 0, 1] : List Nat).map natToDecimal)) =
        some (.A (some [192, 168, 0, 1])) := by
  exact ⟨by decide, by decide, by decide, by decide⟩

/-- C10: there is a parseable query (root qname, qtype A) on which the
handler indexes `name[name.len() - 1]` with an empty name and panics:
`parse_query` succeeds on `c10buf` but `handle_message` panics on it
for every store, so `handle_message` is not total over the queries
`parse_query` can produce. -/
theorem handler_panics_on_empty_qname :
    ∀ store : Store,
      parse_query c10buf false = some (some c10query) ∧
        handle_message store c10buf false = none := by
  intro store
  exact ⟨by decide, rfl⟩

/-- C7 counterexample: with tcp = true a 0-byte buffer makes
`parse_query` slice `buffer[2..]` out of range and panic (the outer
`none`) instead of returning no query (`some none`). -/
theorem parse_query_panic_counterexample :
    parse_query [] true = none ∧ parse_query [] true ≠ some none := by
  exact ⟨rfl, by decide⟩

/-- C4 counterexample: an unparseable non-empty A cell (`"x"`) makes
`get_record` return a default-typed answer with empty rdata, while
the genuinely missing cell with the same fill result returns the fill
(`none` here): a parse failure is NOT treated as a missing cell, and a
malformed (empty-rdata) record IS returned. -/
theorem parse_failure_counterexample :
    get_record (some ([120], 100)) none [[97]] (.A none) =
        some { name := [], type := .A none, cls := 1, ttl := 100,
               rd_length := 0, rdata := [] } ∧
      get_record none none [[97]] (.A none) = none := by
  exact ⟨by decide, by decide⟩

/-- C2 counterexample: for qname `foo.home` with a store hit, the
attached record carries the STRIPPED name `foo`, not the original
`foo.home` the claim requires. -/
theorem home_suffix_name_counterexample :
    (handle_a c2store c2name true DnsResponse.default).map
        (fun r => r.answers.map DnsAnswer.name) =
      some [[[102, 111, 111]]] ∧
      ([[102, 111, 111]] : List RStr) ≠ c2name := by
  exact ⟨by decide, by decide⟩

/-- C1 counterexample: an rd = 0 A query with an SOA store hit yields
one ANSWER record, zero authority records and rcode NxDomain — not
the zero answers and one authority record the claim requires. -/
theorem rd0_soa_counterexample :
    (handle_query c1store c1query).map
        (fun r => (r.answers.length, r.authority_records.length, r.header.rcode)) =
      some (1, 0, .NxDomain) ∧ ¬((1 : Nat) = 0 ∧ (0 : Nat) = 1) := by
  exact ⟨by decide, by decide⟩

/-- C5 counterexample: a Query whose labels and qtypes satisfy the
claim (it has no questions) but whose opcode is 16 is not preserved
by the round trip: `opcode << 3` overflows into the qr bit, so the
reparsed header has qr = 1 and opcode 0. -/
theorem query_roundtrip_counterexample :
    parse_query (build_response_as_query c5query true) true ≠ some (some c5query) ∧
      parse_query (build_response_as_query c5query true) true =
        some (some { c5query with
                     header := { c5query.header with qr := true, opcode := 0 } }) := by
  exact ⟨by decide, by decide⟩
/-- A buffer shorter than 12 bytes has no header. -/
theorem parse_header_short (buffer : List Nat) (h : buffer.length < 12) :
    parse_header buffer = none := by
  simp [parse_header, h]

/-- C7 (amended: totality holds except that with tcp = true a buffer
of fewer than 2 bytes panics on the `buffer[2..]` slice): whenever
tcp is unset or the buffer has at least 2 bytes, `parse_query` does
not panic, and whenever the buffer past the tcp prefix is shorter
than the 12-byte header it returns no query, so the message is
dropped silently. -/
theorem parse_query_short_buffer (buffer : List Nat) (tcp : Bool)
    (h : tcp = false ∨ 2 ≤ buffer.length) :
    parse_query buffer tcp ≠ none ∧
      ((if tcp then buffer.length - 2 else buffer.length) < 12 →
        parse_query buffer tcp = some none) := by
  cases tcp with
  | false =>
    refine ⟨by simp [parse_query], ?_⟩
    intro hshort
    simp at hshort
    simp [parse_query, parse_query_body, parse_header_short buffer hshort]
  | true =>
    have hlen : 2 ≤ buffer.length := by
      rcases h with h | h
      · exact absurd h (by simp)
      · exact h
    constructor
    · simp [parse_query, Nat.not_lt_of_le hlen]
    · intro hshort
      simp at hshort
      have hdrop : (buffer.drop 2).length < 12 := by
        simp [List.length_drop]
        omega
      simp [parse_query, Nat.not_lt_of_le hlen, parse_query_body,
        parse_header_short _ hdrop]

/-- Witness for the C7 theorem at a concrete input: the 1-byte udp
buffer neither panics nor yields a query. -/
theorem parse_query_short_buffer_witness :
    parse_query [0] false ≠ none ∧ parse_query [0] false = some none := by
  exact ⟨(parse_query_short_buffer [0] false (Or.inl rfl)).1,
    (parse_query_short_buffer [0] false (Or.inl rfl)).2 (by decide)⟩

/-- C4 (amended: a non-empty cached string that fails to parse does
NOT trigger a fill; `get_record` ignores the fill path entirely and
returns the default-typed answer with empty rdata — malformed from
the point of view of the requested kind — for both A and AAAA): the
fill argument does not appear in the result. -/
theorem parse_failure_returns_default (fill : Option DnsAnswer)
    (name : List RStr) (value : RStr) (ttl : Nat)
    (hname : name ≠ []) (hvalue : value ≠ []) :
    (ipv4FromStr value = none →
      get_record (some (value, ttl)) fill name (.A none) =
        some (DnsAnswer.default.setTtl ttl)) ∧
      (ipv6FromStr value = none →
        get_record (some (value, ttl)) fill name (.AAAA none) =
          some (DnsAnswer.default.setTtl ttl)) := by
  have hlen : ¬(name.length = 0) := by
    simpa using hname
  constructor
  · intro hfail
    simp [get_record, db_column, hlen, hvalue, get_ans_from_val,
      DnsRecordType.new_a, hfail, DnsAnswer.record]
  · intro hfail
    simp [get_record, db_column, hlen, hvalue, get_ans_from_val,
      DnsRecordType.new_aaaa, hfail, DnsAnswer.record]

/-- Witness for the C4 theorem at a concrete input: cell `"x"` with
ttl 7 under both kinds. -/
theorem parse_failure_returns_default_witness :
    get_record (some ([120], 7)) none [[97]] (.A none) =
        some (DnsAnswer.default.setTtl 7) ∧
      get_record (some ([120], 7)) none [[97]] (.AAAA none) =
        some (DnsAnswer.default.setTtl 7) := by
  exact ⟨(parse_failure_returns_default none [[97]] [120] 7 (by decide)
      (by decide)).1 (by decide),
    (parse_failure_returns_default none [[97]] [120] 7 (by decide)
      (by decide)).2 (by decide)⟩

/-- C2 (amended: the attached record's name field equals the
POST-strip qname — the trailing `home` label is removed from both the
store lookup and the echoed record name; only the question section
keeps the original): on a store hit for a name ending in `home`, the
handlers attach the answer with name set to the stripped name. -/
theorem home_suffix_name_stripped (store : Store) (name : List RStr)
    (rd : Bool) (resp : DnsResponse) (ans : DnsAnswer)
    (hne : name ≠ []) (hlast : name.getD (name.length - 1) [] = homeStr) :
    (store (name.take (name.length - 1)) (if rd then .A none else .SOA none) =
        some ans →
      handle_a store name rd resp =
        some (resp.add_answer (ans.setName (name.take (name.length - 1))))) ∧
      (store (name.take (name.length - 1)) (if rd then .AAAA none else .SOA none) =
          some ans →
        handle_aaaa store name rd resp =
          some (resp.add_answer (ans.setName (name.take (name.length - 1))))) := by
  have hlen : ¬(name.length = 0) := by
    simpa using hne
  cases rd with
  | false =>
    constructor <;> intro hstore <;>
      simp_all [handle_a, handle_aaaa, stripName, hlast]
  | true =>
    constructor <;> intro hstore <;>
      simp_all [handle_a, handle_aaaa, stripName, hlast]

/-- Witness for the C2 theorem at a concrete input: qname `foo.home`,
rd set, a store that always hits with the default answer. -/
theorem home_suffix_name_stripped_witness :
    handle_a c2store c2name true DnsResponse.default =
        some (DnsResponse.default.add_answer
          (DnsAnswer.default.setName (c2name.take (c2name.length - 1)))) ∧
      handle_aaaa c2store c2name true DnsResponse.default =
        some (DnsResponse.default.add_answer
          (DnsAnswer.default.setName (c2name.take (c2name.length - 1)))) := by
  exact ⟨(home_suffix_name_stripped c2store c2name true DnsResponse.default
      DnsAnswer.default (by decide) (by decide)).1 (by decide),
    (home_suffix_name_stripped c2store c2name true DnsResponse.default
      DnsAnswer.default (by decide) (by decide)).2 (by decide)⟩
/-- Question-loop invariant for rd = 0: all-A/AAAA questions with
nonempty qnames and SOA store hits append exactly one SOA-typed
answer each, touch no authority record, and leave the rcode alone. -/
theorem handle_questions_rd0 (store : Store) (qs : List DnsQuestion) :
    ∀ r : DnsResponse,
      (∀ q ∈ qs, (q.qtype = .A none ∨ q.qtype = .AAAA none) ∧ q.qname ≠ [] ∧
        ∃ a, store (stripName q.qname) (.SOA none) = some a ∧ isSOA a.type = true) →
      ∃ r2, handle_questions store false qs r = some r2 ∧
        r2.answers.length = r.answers.length + qs.length ∧
        (∀ a ∈ r2.answers, a ∈ r.answers ∨ isSOA a.type = true) ∧
        r2.authority_records = r.authority_records ∧
        r2.header.rcode = r.header.rcode := by
  induction qs with
  | nil =>
    intro r _
    exact ⟨r, rfl, by simp, fun a ha => Or.inl ha, rfl, rfl⟩
  | cons q qs ih =>
    intro r h
    obtain ⟨htype, hne, a, hstore, hsoa⟩ := h q (by simp)
    have hlen : ¬(q.qname.length = 0) := by simpa using hne
    obtain ⟨r2, hr2, hlen2, hmem2, hauth2, hrcode2⟩ :=
      ih ((r.add_question q).add_answer (a.setName (stripName q.qname)))
        (fun q' hq' => h q' (by simp [hq']))
    refine ⟨r2, ?_, ?_, ?_, ?_, ?_⟩
    · rcases htype with htype | htype <;>
        simp only [handle_questions, htype, handle_a, handle_aaaa, hlen,
          if_false, Bool.not_false, if_true, hstore] <;>
        simpa using hr2
    · have : ((r.add_question q).add_answer
          (a.setName (stripName q.qname))).answers.length =
            r.answers.length + 1 := by
        simp [DnsResponse.add_question, DnsResponse.add_answer]
      rw [hlen2, this]
      simp
      omega
    · intro x hx
      rcases hmem2 x hx with hmem | hmem
      · simp [DnsResponse.add_question, DnsResponse.add_answer] at hmem
        rcases hmem with hmem | hmem
        · exact Or.inl hmem
        · subst hmem
          exact Or.inr (by simpa [DnsAnswer.setName] using hsoa)
      · exact Or.inr hmem
    · rw [hauth2]
      simp [DnsResponse.add_question, DnsResponse.add_answer]
    · rw [hrcode2]
      simp [DnsResponse.add_question, DnsResponse.add_answer]

/-- C1 (amended: the SOA obtained from the store for an rd = 0 A/AAAA
question is attached via `add_answer`): for every parsed query with
rd = 0 whose questions all have qtype A or AAAA and a nonempty qname,
with an SOA store hit for each stripped name, the response has
exactly one ANSWER record of kind SOA per question, zero authority
records, and rcode NxDomain. -/
theorem rd0_soa_in_answers (store : Store) (q : DnsQuery)
    (hrd : q.header.rd = false)
    (hq : ∀ question ∈ q.questions,
      (question.qtype = .A none ∨ question.qtype = .AAAA none) ∧
        question.qname ≠ [] ∧
        ∃ a, store (stripName question.qname) (.SOA none) = some a ∧
          isSOA a.type = true) :
    rd0Shape q.questions.length (handle_query store q) := by
  rw [handle_query, hrd]
  obtain ⟨r2, hr2, hlen2, hmem2, hauth2, hrcode2⟩ :=
    handle_questions_rd0 store q.questions
      (((DnsResponse.default.id q.header.id).rd false).rcode .NxDomain) hq
  simp only [Bool.not_false, if_true]
  rw [hr2]
  refine ⟨?_, ?_, ?_, ?_⟩
  · rw [hlen2]
    simp [DnsResponse.default, DnsResponse.id, DnsResponse.rd, DnsResponse.rcode]
  · intro a ha
    rcases hmem2 a ha with hmem | hmem
    · simp [DnsResponse.default, DnsResponse.id, DnsResponse.rd,
        DnsResponse.rcode] at hmem
    · exact hmem
  · rw [hauth2]
    simp [DnsResponse.default, DnsResponse.id, DnsResponse.rd, DnsResponse.rcode]
  · rw [hrcode2]
    simp [DnsResponse.default, DnsResponse.id, DnsResponse.rd, DnsResponse.rcode]

/-- Witness for the C1 theorem at a concrete input: one rd = 0 A
question for name `a` against a store hitting with an SOA answer. -/
theorem rd0_soa_in_answers_witness : rd0Shape 1 (handle_query c1store c1query) := by
  exact rd0_soa_in_answers c1store c1query rfl
    (by
      intro question hmem
      simp [c1query] at hmem
      subst hmem
      exact ⟨Or.inl rfl, by decide, c1soaAns, rfl, by decide⟩)
/-- The three section-adding builders preserve the mod-2^16 count
agreement. -/
theorem countsMod_ops (r : DnsResponse) (q : DnsQuestion) (a : DnsAnswer)
    (h : countsMod r) :
    countsMod (r.add_question q) ∧ countsMod (r.add_answer a) ∧
      countsMod (r.add_auth_record a) := by
  obtain ⟨h1, h2, h3, h4⟩ := h
  refine ⟨⟨?_, ?_, ?_, ?_⟩, ⟨?_, ?_, ?_, ?_⟩, ⟨?_, ?_, ?_, ?_⟩⟩ <;>
    simp [DnsResponse.add_question, DnsResponse.add_answer,
      DnsResponse.add_auth_record, h1, h2, h3, h4]

/-- The rcode setter preserves the count agreement. -/
theorem countsMod_rcode (r : DnsResponse) (c : DnsResponseCode)
    (h : countsMod r) : countsMod (r.rcode c) := by
  simpa [countsMod, DnsResponse.rcode] using h

/-- `handle_txt` only adds answers, preserving the count agreement. -/
theorem countsMod_handle_txt (fields : List RStr) :
    ∀ r : DnsResponse, countsMod r → countsMod (handle_txt fields r) := by
  induction fields with
  | nil => intro r h; exact h
  | cons f fs ih =>
    intro r h
    have : handle_txt (f :: fs) r =
        handle_txt fs (r.add_answer
          (((DnsAnswer.default.setName [f]).setTtl 30).record
            (DnsRecordType.new_txt (txtContent f)))) := by
      simp [handle_txt]
    rw [this]
    exact ih _ (countsMod_ops r ⟨[], .A none, 0⟩ _ h).2.1

/-- The miss/hit continuation shared by `handle_a` and `handle_aaaa`
preserves the count agreement: a miss only sets the rcode, a hit adds
one answer. -/
theorem countsMod_attach (r r2 : DnsResponse) (hc : countsMod r)
    (o : Option DnsAnswer) (nm : List RStr)
    (h : (match o with
          | none => some (r.rcode .NxDomain)
          | some answer => some (r.add_answer (answer.setName nm))) = some r2) :
    countsMod r2 := by
  cases o with
  | none =>
    injection h with h
    rw [← h]
    exact countsMod_rcode r _ hc
  | some a =>
    injection h with h
    rw [← h]
    exact (countsMod_ops r ⟨[], .A none, 0⟩ _ hc).2.1

/-- `handle_a` preserves the count agreement. -/
theorem countsMod_handle_a (store : Store) (name : List RStr) (rd : Bool)
    (r r2 : DnsResponse) (hc : countsMod r)
    (h : handle_a store name rd r = some r2) : countsMod r2 := by
  rw [handle_a] at h
  split at h
  · exact Option.noConfusion h
  · split at h
    · exact countsMod_attach r r2 hc _ _ h
    · exact countsMod_attach r r2 hc _ _ h

/-- `handle_aaaa` preserves the count agreement. -/
theorem countsMod_handle_aaaa (store : Store) (name : List RStr) (rd : Bool)
    (r r2 : DnsResponse) (hc : countsMod r)
    (h : handle_aaaa store name rd r = some r2) : countsMod r2 := by
  rw [handle_aaaa] at h
  split at h
  · exact Option.noConfusion h
  · split at h
    · exact countsMod_attach r r2 hc _ _ h
    · exact countsMod_attach r r2 hc _ _ h

/-- The question loop preserves the count agreement. -/
theorem countsMod_handle_questions (store : Store) (rd : Bool)
    (qs : List DnsQuestion) :
    ∀ r r2 : DnsResponse, handle_questions store rd qs r = some r2 →
      countsMod r → countsMod r2 := by
  induction qs with
  | nil =>
    intro r r2 h hc
    injection h with h
    rw [← h]
    exact hc
  | cons q qs ih =>
    intro r r2 h hc
    have hc1 : countsMod (r.add_question q) :=
      (countsMod_ops r q DnsAnswer.default hc).1
    rw [handle_questions] at h
    split at h
    · -- A
      rename_i heq
      cases hha : handle_a store q.qname rd (r.add_question q) with
      | none => rw [hha] at h; exact Option.noConfusion h
      | some r1 =>
        rw [hha] at h
        exact ih _ _ h (countsMod_handle_a store q.qname rd _ _ hc1 hha)
    · -- AAAA
      cases hha : handle_aaaa store q.qname rd (r.add_question q) with
      | none => rw [hha] at h; exact Option.noConfusion h
      | some r1 =>
        rw [hha] at h
        exact ih _ _ h (countsMod_handle_aaaa store q.qname rd _ _ hc1 hha)
    · -- TXT
      exact ih _ _ h (countsMod_handle_txt _ _ hc1)
    · -- NotImplemented
      exact ih _ _ h hc1
    · -- remaining kinds
      exact ih _ _ h hc1

/-- C6 (amended: the counts are u16 and wrap, so every reachable
response satisfies qd = |questions| mod 2^16, an = |answers| mod 2^16,
ns = |authority| mod 2^16, ar = |additional| mod 2^16 — hence the
plain equalities exactly while each section holds fewer than 2^16
entries — and every response the handler produces satisfies the same
mod-2^16 agreement). -/
theorem counts_agree_mod :
    (∀ r, Reachable r → countsMod r) ∧
      (∀ (store : Store) (q : DnsQuery) (r : DnsResponse),
        handle_query store q = some r → countsMod r) := by
  have hdef : countsMod DnsResponse.default := by
    exact ⟨rfl, rfl, rfl, rfl⟩
  constructor
  · intro r h
    induction h with
    | base => exact hdef
    | add_question q h ih => exact (countsMod_ops _ q DnsAnswer.default ih).1
    | add_answer a h ih => exact (countsMod_ops _ ⟨[], .A none, 0⟩ a ih).2.1
    | add_auth_record a h ih => exact (countsMod_ops _ ⟨[], .A none, 0⟩ a ih).2.2
  · intro store q r h
    rw [handle_query] at h
    have hc0 : countsMod ((DnsResponse.default.id q.header.id).rd q.header.rd) := by
      exact ⟨rfl, rfl, rfl, rfl⟩
    cases hrd : (!q.header.rd) with
    | true =>
      rw [hrd] at h
      simp at h
      exact countsMod_handle_questions store q.header.rd q.questions _ r h
        (countsMod_rcode _ _ hc0)
    | false =>
      rw [hrd] at h
      simp at h
      exact countsMod_handle_questions store q.header.rd q.questions _ r h hc0

/-- `addAnswers n` is reachable, holds `n` answers, and its `an_count`
is `n` wrapped to u16. -/
theorem addAnswers_spec (n : Nat) :
    Reachable (addAnswers n) ∧ (addAnswers n).answers.length = n ∧
      (addAnswers n).header.an_count = n % 65536 := by
  induction n with
  | zero => exact ⟨Reachable.base, rfl, rfl⟩
  | succ n ih =>
    obtain ⟨h1, h2, h3⟩ := ih
    refine ⟨Reachable.add_answer _ h1, ?_, ?_⟩
    · simp [addAnswers, DnsResponse.add_answer, h2]
    · simp only [addAnswers, DnsResponse.add_answer, h3]
      omega

/-- C6 counterexample: after 2^16 `add_answer` calls the response is
reachable but its u16 `an_count` has wrapped to 0 while the answer
section holds 65536 records, so the claimed plain equality fails. -/
theorem counts_overflow_counterexample :
    Reachable (addAnswers 65536) ∧
      (addAnswers 65536).header.an_count ≠ (addAnswers 65536).answers.length := by
  obtain ⟨h1, h2, h3⟩ := addAnswers_spec 65536
  refine ⟨h1, ?_⟩
  rw [h2, h3]
  decide

/-- Witness for the C6 theorem at concrete inputs: the default
response, one `add_answer` step, and a handler run on an empty rd = 1
query. -/
theorem counts_agree_mod_witness :
    countsMod DnsResponse.default ∧
      countsMod (DnsResponse.default.add_answer DnsAnswer.default) ∧
      countsMod c6resp :=
  ⟨counts_agree_mod.1 _ Reachable.base,
   counts_agree_mod.1 _ (Reachable.add_answer _ Reachable.base),
   counts_agree_mod.2 c6store c6query c6resp rfl⟩
/-- Extracting each flag of the first header flag byte recovers the
field that went in, for opcode below 16. -/
theorem flag1_bits : ∀ (rd tc aa qr : Bool), ∀ op < 16,
    ((((rd.toNat ||| tc.toNat <<< 1 ||| aa.toNat <<< 2 ||| (op <<< 3) % 256 |||
        qr.toNat <<< 7) &&& 0b10000000) >>> 7) != 0) = qr ∧
      ((rd.toNat ||| tc.toNat <<< 1 ||| aa.toNat <<< 2 ||| (op <<< 3) % 256 |||
        qr.toNat <<< 7) &&& 0b01111000) >>> 3 = op ∧
      ((((rd.toNat ||| tc.toNat <<< 1 ||| aa.toNat <<< 2 ||| (op <<< 3) % 256 |||
        qr.toNat <<< 7) &&& 0b00000100) >>> 2) != 0) = aa ∧
      ((((rd.toNat ||| tc.toNat <<< 1 ||| aa.toNat <<< 2 ||| (op <<< 3) % 256 |||
        qr.toNat <<< 7) &&& 0b00000010) >>> 1) != 0) = tc ∧
      (((rd.toNat ||| tc.toNat <<< 1 ||| aa.toNat <<< 2 ||| (op <<< 3) % 256 |||
        qr.toNat <<< 7) &&& 0b00000001) != 0) = rd := by
  decide

/-- Extracting each flag of the second header flag byte recovers the
field that went in, for z below 8 and rcode byte below 6. -/
theorem flag2_bits : ∀ (ra : Bool), ∀ z < 8, ∀ rc < 6,
    ((((rc ||| (z <<< 4) % 256 ||| ra.toNat <<< 7) &&& 0b10000000) >>> 7) != 0) = ra ∧
      ((rc ||| (z <<< 4) % 256 ||| ra.toNat <<< 7) &&& 0b01110000) >>> 4 = z ∧
      (rc ||| (z <<< 4) % 256 ||| ra.toNat <<< 7) &&& 0b00001111 = rc := by
  decide

/-- The rcode byte is below 6 and decodes back to the rcode. -/
theorem rcode_roundtrip (c : DnsResponseCode) :
    c.to_byte < 6 ∧ DnsResponseCode.from_byte c.to_byte = c := by
  cases c <;> exact ⟨by decide, rfl⟩

/-- `parse_header` evaluated on a buffer with at least 12 bytes,
spelled as a cons chain. -/
theorem parse_header_cons (b0 b1 b2 b3 b4 b5 b6 b7 b8 b9 b10 b11 : Nat)
    (rest : List Nat) :
    parse_header (b0 :: b1 :: b2 :: b3 :: b4 :: b5 :: b6 :: b7 :: b8 :: b9 ::
        b10 :: b11 :: rest) =
      some ({ id := b0 * 256 + b1,
              qr := ((b2 &&& 0b10000000) >>> 7) != 0,
              opcode := (b2 &&& 0b01111000) >>> 3,
              aa := ((b2 &&& 0b00000100) >>> 2) != 0,
              tc := ((b2 &&& 0b00000010) >>> 1) != 0,
              rd := (b2 &&& 0b00000001) != 0,
              ra := ((b3 &&& 0b10000000) >>> 7) != 0,
              z := (b3 &&& 0b01110000) >>> 4,
              rcode := .from_byte (b3 &&& 0b00001111),
              qd_count := b4 * 256 + b5,
              an_count := b6 * 256 + b7,
              ns_count := b8 * 256 + b9,
              ar_count := b10 * 256 + b11 },
            if rest.isEmpty then none else some rest) := by
  cases rest with
  | nil => simp [parse_header, List.getD]
  | cons x xs =>
    simp only [parse_header, List.length_cons]
    rw [if_neg (by omega)]
    rw [if_pos (by omega)]
    simp [List.getD]

/-- Parsing the built header recovers the header, for header fields
in range, and hands back exactly the trailing bytes. -/
theorem parse_header_build (h : DnsHeader) (rest : List Nat) (hw : wfHeader h) :
    parse_header (h.build ++ rest) =
      some (h, if rest.isEmpty then none else some rest) := by
  obtain ⟨id, qr, op, aa, tc, rd, ra, z, rc, qd, an, ns, ar⟩ := h
  obtain ⟨hid, hop, hz, hqd, han, hns, har⟩ := hw
  dsimp only at hid hop hz hqd han hns har ⊢
  have hb : DnsHeader.build ⟨id, qr, op, aa, tc, rd, ra, z, rc, qd, an, ns, ar⟩ ++ rest =
      (id / 256 % 256) :: (id % 256) ::
        (rd.toNat ||| tc.toNat <<< 1 ||| aa.toNat <<< 2 ||| (op <<< 3) % 256 |||
          qr.toNat <<< 7) ::
        (rc.to_byte ||| (z <<< 4) % 256 ||| ra.toNat <<< 7) ::
        (qd / 256 % 256) :: (qd % 256) :: (an / 256 % 256) :: (an % 256) ::
        (ns / 256 % 256) :: (ns % 256) :: (ar / 256 % 256) :: (ar % 256) :: rest := by
    simp [DnsHeader.build, u16be]
  rw [hb, parse_header_cons]
  obtain ⟨hqr, hopx, haa, htc, hrd⟩ := flag1_bits rd tc aa qr op hop
  obtain ⟨hra, hzx, hrcx⟩ := flag2_bits ra z hz rc.to_byte (rcode_roundtrip rc).1
  simp only [Option.some.injEq, Prod.mk.injEq, DnsHeader.mk.injEq]
  refine ⟨⟨?_, ?_, ?_, ?_, ?_, ?_, ?_, ?_, ?_, ?_, ?_, ?_, ?_⟩, trivial⟩
  · omega
  · exact hqr
  · exact hopx
  · exact haa
  · exact htc
  · exact hrd
  · exact hra
  · exact hzx
  · rw [hrcx]
    exact (rcode_roundtrip rc).2
  · omega
  · omega
  · omega
  · omega

/-- `read_label` reads back exactly the label it is given. -/
theorem read_label_append (xs r : List Nat) :
    read_label xs.length (xs ++ r) = some (xs, r) := by
  induction xs with
  | nil => rfl
  | cons c cs ih => simp [read_label, ih]

/-- For a known qtype, the numeric code is below 256 and decodes back
to the same qtype. -/
theorem from_byte_to_byte (t : DnsRecordType) (h : knownType t) :
    DnsRecordType.from_byte t.to_byte.1 = t ∧ t.to_byte.1 < 256 := by
  rcases h with rfl | rfl | rfl | rfl | rfl | rfl | rfl | rfl | rfl | rfl <;>
    exact ⟨rfl, by decide⟩

/-- The encoded name is longer than its label count. -/
theorem dltb_length_gt (n : List RStr) :
    n.length < (domain_list_to_bytes n).length := by
  induction n with
  | nil => simp [domain_list_to_bytes]
  | cons l t ih =>
    simp [domain_list_to_bytes] at ih ⊢
    omega

/-- `parse_labels` reads back exactly the labels that were encoded,
for labels of 1 to 255 bytes and any fuel above the label count. -/
theorem parse_labels_encode (n : List RStr) :
    ∀ (fuel : Nat) (rest : List Nat), (∀ l ∈ n, wfLabel l) → n.length < fuel →
      parse_labels fuel (domain_list_to_bytes n ++ rest) = some (n, rest) := by
  induction n with
  | nil =>
    intro fuel rest _ hf
    cases fuel with
    | zero => omega
    | succ f => simp [domain_list_to_bytes, parse_labels]
  | cons l n ih =>
    intro fuel rest hw hf
    cases fuel with
    | zero => omega
    | succ f =>
      obtain ⟨hl1, hl63, _⟩ := hw l (by simp)
      have hmod : l.length % 256 = l.length := Nat.mod_eq_of_lt (by omega)
      have hbytes : domain_list_to_bytes (l :: n) ++ rest =
          (l.length % 256) :: (l ++ (domain_list_to_bytes n ++ rest)) := by
        simp [domain_list_to_bytes]
      rw [hbytes]
      simp only [parse_labels, hmod]
      rw [if_neg (by omega)]
      rw [read_label_append l (domain_list_to_bytes n ++ rest)]
      dsimp only
      rw [ih f rest (fun l' hl' => hw l' (by simp [hl'])) (by simpa using hf)]
      rfl

/-- Parsing a built question recovers the question and hands back the
trailing bytes. -/
theorem parse_question_build (q : DnsQuestion) (rest : List Nat)
    (hw : wfQuestion q) :
    parse_question (q.build ++ rest) =
      some (q, if rest.isEmpty then none else some rest) := by
  obtain ⟨qn, qt, qc⟩ := q
  obtain ⟨hn, hk, hc⟩ := hw
  dsimp only at hn hk hc ⊢
  obtain ⟨hfb, htb⟩ := from_byte_to_byte qt hk
  have hbytes : DnsQuestion.build ⟨qn, qt, qc⟩ ++ rest =
      domain_list_to_bytes qn ++
        ((qt.to_byte.1 / 256 % 256) :: (qt.to_byte.1 % 256) ::
          (qc / 256 % 256) :: (qc % 256) :: rest) := by
    simp [DnsQuestion.build, u16be]
  rw [hbytes]
  have hfuel : qn.length <
      (domain_list_to_bytes qn ++
        ((qt.to_byte.1 / 256 % 256) :: (qt.to_byte.1 % 256) ::
          (qc / 256 % 256) :: (qc % 256) :: rest)).length := by
    have := dltb_length_gt qn
    simp only [List.length_append]
    omega
  rw [parse_question]
  rw [parse_labels_encode qn _ _ hn hfuel]
  dsimp only
  rw [if_neg (by simp)]
  have hqt : (qt.to_byte.1 / 256 % 256 * 256 + qt.to_byte.1 % 256) % 256 =
      qt.to_byte.1 := by
    omega
  simp only [List.getD_cons_zero, List.getD_cons_succ, hqt, hfb]
  have hqc : qc / 256 % 256 * 256 + qc % 256 = qc := by omega
  rw [hqc]
  cases rest with
  | nil => simp
  | cons x xs => simp

/-- A built question is never empty (the encoded name alone ends with
the terminator byte). -/
theorem build_question_length_pos (q : DnsQuestion) : 0 < q.build.length := by
  have := dltb_length_gt q.qname
  simp [DnsQuestion.build]
  omega

/-- The concatenated question encodings are at least as long as the
question count. -/
theorem flatten_builds_length (qs : List DnsQuestion) :
    qs.length ≤ ((qs.map DnsQuestion.build).flatten).length := by
  induction qs with
  | nil => simp
  | cons q qs ih =>
    have := build_question_length_pos q
    simp only [List.map_cons, List.flatten_cons, List.length_append,
      List.length_cons]
    omega

/-- The question loop reads back exactly the questions that were
encoded, for any fuel at or above the question count. -/
theorem parse_questions_build (qs : List DnsQuestion) :
    ∀ fuel : Nat, qs ≠ [] → (∀ q ∈ qs, wfQuestion q) → qs.length ≤ fuel →
      parse_questions fuel ((qs.map DnsQuestion.build).flatten) = some qs := by
  induction qs with
  | nil =>
    intro fuel h _ _
    exact absurd rfl h
  | cons q qs ih =>
    intro fuel _ hw hf
    cases fuel with
    | zero => simp at hf
    | succ f =>
      have hflat : ((q :: qs).map DnsQuestion.build).flatten =
          q.build ++ (qs.map DnsQuestion.build).flatten := by
        simp
      rw [hflat, parse_questions,
        parse_question_build q _ (hw q (by simp))]
      cases qs with
      | nil => simp
      | cons q2 qs2 =>
        have hlen := flatten_builds_length (q2 :: qs2)
        have hne : (((q2 :: qs2).map DnsQuestion.build).flatten).isEmpty = false := by
          rw [List.isEmpty_eq_false_iff_exists_mem]
          cases hx : ((q2 :: qs2).map DnsQuestion.build).flatten with
          | nil => rw [hx] at hlen; simp at hlen
          | cons y ys => exact ⟨y, by simp⟩
        rw [hne]
        show (parse_questions f
            (((q2 :: qs2).map DnsQuestion.build).flatten)).map
              (fun rest => q :: rest) = some (q :: q2 :: qs2)
        rw [ih f (by simp) (fun q' hq' => hw q' (by simp [hq']))
          (by simp at hf ⊢; omega)]
        rfl

/-- C5 (amended: the header must also have opcode below 16 and z
below 8 — u4/u3 bit fields stored as u8 — and its u16 fields in
range; without that the flag byte encoding is lossy): for every Query
with labels of 1 to 63 ASCII bytes, known qtypes, and header fields
in range, serializing header and questions through the response
builder with tcp and parsing the result yields the original query. -/
theorem query_roundtrip_tcp (q : DnsQuery) (hw : wfQuery q) :
    parse_query (build_response_as_query q true) true = some (some q) := by
  obtain ⟨hdr, qs⟩ := q
  obtain ⟨hwh, hwq⟩ := hw
  dsimp only at hwh hwq ⊢
  have hb : build_response_as_query ⟨hdr, qs⟩ true =
      u16be (hdr.build ++ (qs.map DnsQuestion.build).flatten).length ++
        (hdr.build ++ (qs.map DnsQuestion.build).flatten) := by
    simp [build_response_as_query, DnsResponse.build]
  rw [hb]
  have hdrop : (u16be (hdr.build ++ (qs.map DnsQuestion.build).flatten).length ++
      (hdr.build ++ (qs.map DnsQuestion.build).flatten)).drop 2 =
        hdr.build ++ (qs.map DnsQuestion.build).flatten := by
    simp [u16be]
  rw [parse_query]
  rw [if_pos rfl]
  rw [if_neg (by simp [u16be])]
  rw [hdrop]
  rw [parse_query_body, parse_header_build hdr _ hwh]
  cases qs with
  | nil => simp
  | cons q1 qs1 =>
    have hlen := flatten_builds_length (q1 :: qs1)
    have hne : (((q1 :: qs1).map DnsQuestion.build).flatten).isEmpty = false := by
      rw [List.isEmpty_eq_false_iff_exists_mem]
      cases hx : ((q1 :: qs1).map DnsQuestion.build).flatten with
      | nil => rw [hx] at hlen; simp at hlen
      | cons y ys => exact ⟨y, by simp⟩
    rw [hne]
    show some (match parse_questions
        (((q1 :: qs1).map DnsQuestion.build).flatten).length
        (((q1 :: qs1).map DnsQuestion.build).flatten) with
      | none => (none : Option DnsQuery)
      | some questions => some (DnsQuery.mk hdr questions)) =
        some (some (DnsQuery.mk hdr (q1 :: qs1)))
    rw [parse_questions_build (q1 :: qs1) _ (by simp) hwq (by simpa using hlen)]

/-- Witness for the C5 theorem at a concrete input: a one-question A
query for `www` with flags and counts set. -/
theorem query_roundtrip_tcp_witness :
    parse_query (build_response_as_query c5wquery true) true =
      some (some c5wquery) :=
  query_roundtrip_tcp c5wquery (by
    constructor
    · exact ⟨by decide, by decide, by decide, by decide, by decide, by decide,
        by decide⟩
    · intro question hmem
      simp [c5wquery] at hmem
      subst hmem
      refine ⟨?_, ?_, by decide⟩
      · intro l hl
        simp at hl
        subst hl
        exact ⟨by decide, by decide, by decide⟩
      · exact Or.inl rfl)
